import Mathlib

/-!
Verification development for the insight-agent workflow engine.

The Python sources are shallowly embedded as Lean definitions:

* `src/infra/vkdb/join.py`      — join-key extraction from `landscape_video` URLs
* `src/infra/mysql/tools.py`    — SQL composition (modeled structurally)
* `src/services/vkdb_mysql_service.py` — VikingDB → MySQL join pipeline
* `src/services/intent_structurize_service.py` — batch intent structurization
* `src/graphs/agent_graph/graph.py` / `nodes.py` — routing and node logic
* `src/services/agent_service.py` — the streaming event reconciler

External collaborators (the LLM, MySQL server, VikingDB transport) are
parameters/oracles of the embedded functions; everything the repository
computes itself is embedded from the source.  Python strings are modeled as
Lean `String`s; `str.strip` is modeled as ASCII-whitespace trimming
and `str.isdigit` as ASCII digits, which agree with Python on all inputs
used below.
-/

/-! ## Small Python string helpers (modeled over `List Char`) -/

/-- Python `list.count`-style membership-free first-occurrence deduplication:
`firstOccurAux l acc` appends each element of `l` not already present, keeping
first-occurrence order.  Used to specify the id-collection loop of
`_extract_material_ids_and_tos`. -/
def firstOccurAux : List String → List String → List String
  | [], acc => acc
  | x :: rest, acc =>
    if x ∈ acc then firstOccurAux rest acc else firstOccurAux rest (acc ++ [x])

/-- Distinct elements of `l` in order of first occurrence. -/
def firstOccur (l : List String) : List String := firstOccurAux l []

/-- `subAt hay pat i` : does `pat` occur in `hay` starting at index `i`?
Models Python substring tests used via `str.rfind` and the `in` operator. -/
def subAt (hay pat : List Char) (i : Nat) : Bool :=
  (hay.drop i).take pat.length == pat

/-- Model of Python `hay.rfind(pat)` restricted to found results: the largest
index at which `pat` occurs in `hay` (`none` plays the role of `-1`). -/
def rfindSub (hay pat : List Char) : Option Nat :=
  ((List.range (hay.length + 1)).filter (subAt hay pat)).getLast?

/-- Model of Python `pat in hay` for strings. -/
def containsSub (hay pat : List Char) : Bool :=
  (rfindSub hay pat).isSome

/-- Strip ASCII whitespace from both ends of a character list
(model of Python `str.strip()` for the ASCII inputs of this code base). -/
def trimChars (l : List Char) : List Char :=
  ((l.dropWhile Char.isWhitespace).reverse.dropWhile Char.isWhitespace).reverse

/-- Model of Python `s.rsplit(sep, 1)[-1]` for a single-character separator:
the segment after the last occurrence of the separator. -/
def lastSegment (sep : Char) (l : List Char) : List Char :=
  (l.splitOn sep).getLastD []

/-- Model of Python nonempty-and-all-digits test `str.isdigit` (ASCII digits;
the material ids of this code base are ASCII). -/
def pyIsDigit (l : List Char) : Bool :=
  !l.isEmpty && l.all Char.isDigit

/-- Python `str.strip()` on a `String` (character-list based so that it
evaluates by `decide`/`rfl`). -/
def pyStrip (s : String) : String := String.mk (trimChars s.toList)

/-- Python `str.lower()` on a `String` (ASCII case folding; character-list
based). -/
def pyLower (s : String) : String := String.mk (s.toList.map Char.toLower)

/-- Python slicing `s[n:]` by code points (character-list based). -/
def strDrop (s : String) (n : Nat) : String := String.mk (s.toList.drop n)

/-! ## Model of `urllib.parse.urlsplit(url).path`

`extract_material_id_from_landscape_video` calls `urlsplit` and only reads
`.path`.  We model CPython urlsplit (3.11 line): remove tab/CR/LF anywhere,
strip a scheme `alpha (alnum|+|-|.)* :`, strip a `//netloc` (up to the first
of `/?#`), then cut the fragment (first `#`) and the query (first `?`).
`none` models the `ValueError` raised for a netloc with unbalanced square
brackets (the newer bracketed-host validation is not modeled; no claim below
exercises bracketed hosts). -/

/-- Characters CPython removes from a URL before splitting. -/
def urlUnsafeChar (c : Char) : Bool :=
  c == '\t' || c == '\r' || c == '\n'

/-- CPython `scheme_chars`: ASCII letters, digits, `+`, `-`, `.`. -/
def schemeChar (c : Char) : Bool :=
  c.isAlpha || c.isDigit || c == '+' || c == '-' || c == '.'

/-- Netloc delimiter used by CPython `_splitnetloc`. -/
def netlocDelim (c : Char) : Bool :=
  c == '/' || c == '?' || c == '#'

/-- Drop the `scheme:` part of a URL when present (CPython urlsplit). -/
def dropScheme (url : List Char) : List Char :=
  match url.findIdx? (· = ':') with
  | some i =>
    if 0 < i ∧ (url.headD ' ').isAlpha ∧ (url.take i).all schemeChar then
      url.drop (i + 1)
    else url
  | none => url

/-- Split off the `//netloc` part, returning `(netloc, rest)` (CPython
`_splitnetloc`). -/
def splitNetloc (url : List Char) : List Char × List Char :=
  if url.take 2 = ['/', '/'] then
    let rest := url.drop 2
    (rest.takeWhile (fun c => !netlocDelim c), rest.dropWhile (fun c => !netlocDelim c))
  else ([], url)

/-- Model of `urlsplit(url).path`; `none` models the `ValueError` branch. -/
def pyUrlsplitPath (url : List Char) : Option (List Char) :=
  let url := url.filter (fun c => !urlUnsafeChar c)
  let url := dropScheme url
  let (netloc, url) := splitNetloc url
  if (netloc.contains '[' ∧ ¬ netloc.contains ']')
      ∨ (netloc.contains ']' ∧ ¬ netloc.contains '[') then
    none
  else
    let url := url.takeWhile (· ≠ '#')
    let url := url.takeWhile (· ≠ '?')
    some url

/-! ## `src/infra/vkdb/join.py` -/

/-- The characters of `".mp4"`. -/
def mp4Chars : List Char := ['.', 'm', 'p', '4']

/-- The filename the source computes: last segment of `urlsplit(raw).path`
when that path is nonempty, else last segment of `raw` itself (also the
`except` fallback), then `strip()`ped. -/
def filenameOfRaw (raw : List Char) : List Char :=
  match pyUrlsplitPath raw with
  | some path =>
    if path ≠ [] then trimChars (lastSegment '/' path)
    else trimChars (lastSegment '/' raw)
  | none => trimChars (lastSegment '/' raw)

/-- Embedding of `extract_material_id_from_landscape_video` (join.py:24-52):
strip; filename component of the url path; `rfind(".mp4")` on the lowercased
filename; reject index ≤ 0; the prefix before that index must satisfy
`isdigit`. -/
def extractMaterialId (landscapeVideoUrl : String) : Option String :=
  let raw := trimChars landscapeVideoUrl.toList
  if raw = [] then none
  else
    let filename := filenameOfRaw raw
    if filename = [] then none
    else
      let lower := filename.map Char.toLower
      match rfindSub lower mp4Chars with
      | none => none
      | some idx =>
        if idx = 0 then none
        else
          let materialId := filename.take idx
          if pyIsDigit materialId then some (String.mk materialId) else none

/-- The claim C8 as written (spec-side definition, for refinement comparison
only): take the filename component, strip the literal `".mp4"` extension —
i.e. the filename must end in `".mp4"` — and require the remainder to be
non-empty and purely numeric; `none` in every other case. -/
def specExtractMaterialIdClaim (landscapeVideoUrl : String) : Option String :=
  let raw := trimChars landscapeVideoUrl.toList
  if raw = [] then none
  else
    let filename := filenameOfRaw raw
    if filename.length ≥ 5 ∧ filename.drop (filename.length - 4) = mp4Chars then
      let remainder := filename.take (filename.length - 4)
      if pyIsDigit remainder then some (String.mk remainder) else none
    else none

/-- Last index at which `pat` occurs in `hay`, written independently of
`rfindSub`: scan candidate indices from the top. -/
def lastOccIdx (hay pat : List Char) : Option Nat :=
  (List.range (hay.length + 1)).reverse.find? (subAt hay pat)

/-- The amended claim C8 as a spec-side definition: the join key is the
prefix of the filename before the last case-insensitive occurrence of
`".mp4"` (anywhere in the filename, not only as its extension), provided
that occurrence starts past position 0 and the prefix is purely numeric;
`none` in every other case. -/
def specExtractMaterialIdAmended (landscapeVideoUrl : String) : Option String :=
  let raw := trimChars landscapeVideoUrl.toList
  if raw = [] then none
  else
    let filename := filenameOfRaw raw
    match lastOccIdx (filename.map Char.toLower) mp4Chars with
    | none => none
    | some idx =>
      if 0 < idx ∧ pyIsDigit (filename.take idx) then
        some (String.mk (filename.take idx))
      else none

/-- Embedding of `extract_landscape_video_value` (join.py:8-21): the field
value may be absent, a string, or a mapping with a `value` entry. -/
inductive LandscapeVideo where
  | none
  | str (s : String)
  | dict (value : Option String)
  | other
deriving DecidableEq, Repr

/-- `extract_landscape_video_value`. -/
def extractLandscapeVideoValue : LandscapeVideo → String
  | .none => ""
  | .str s => pyStrip s
  | .dict (some v) => pyStrip v
  | .dict Option.none => ""
  | .other => ""

/-- The `fields` map of one VikingDB record, restricted to the fields this
engine reads (`landscape_video`, `intent_analysis`); absent
`intent_analysis` is the empty string (`fields.get("intent_analysis", "")`). -/
structure VkdbFields where
  landscape_video : LandscapeVideo
  intent_analysis : String
deriving DecidableEq, Repr

/-- One entry of `result.data`: a JSON object (with its `fields`) or a
non-object entry (skipped by every consumer). -/
inductive VkdbDatum where
  | obj (fields : VkdbFields)
  | other
deriving DecidableEq, Repr

/-- A VikingDB search response, reduced to `result.data`. -/
structure VkdbResponse where
  data : List VkdbDatum
deriving DecidableEq, Repr

/-- Result of `extract_join_info_from_vkdb_item` (join.py:55-65). -/
structure JoinExtractResult where
  tosUrl : String
  materialId : Option String
deriving DecidableEq, Repr

/-- `extract_join_info_from_vkdb_item`. -/
def extractJoinInfoFromVkdbItem (fields : VkdbFields) : JoinExtractResult :=
  let tosUrl := extractLandscapeVideoValue fields.landscape_video
  { tosUrl := tosUrl, materialId := extractMaterialId tosUrl }

example : extractMaterialId "tos://mindsync-lop-user/common/qianchuan/materials/2025/11/22/7549416067249274934.mp4" = some "7549416067249274934" := by decide
example : extractMaterialId "https://example.com/path/7549416067249274934.mp4?x=1&y=2" = some "7549416067249274934" := by decide
example : extractMaterialId "tos://bucket/path/7549416067249274934" = none := by decide
example : extractMaterialId "https://example.com/path/abc123.mp4" = none := by decide
example : extractMaterialId "" = none := by decide
example : extractMaterialId "123.mp4x" = some "123" := by decide
example : specExtractMaterialIdClaim "123.mp4x" = none := by decide
example : extractMaterialId "123.MP4" = some "123" := by decide

/-! ## `src/services/intent_structurize_service.py`

The LLM is an oracle: `with_structured_output(...).invoke` either fails
(transport error or pydantic rejection of what the model produced —
modeled by running the embedded validators over the raw candidate) or
returns a validated payload.  The JSON decoding of the fallback path is an
oracle answer for the brace-extracted substring. -/

/-- `_TAG_RE = ^[A-Za-z][A-Za-z0-9_]*$` (re.match on an already-stripped
value). -/
def tagMatch (s : String) : Bool :=
  match s.toList with
  | [] => false
  | c :: rest => c.isAlpha && rest.all (fun d => d.isAlpha || d.isDigit || d == '_')

/-- `_require_non_empty` (intent_structurize_service.py:23-29). -/
def requireNonEmpty (value fieldName : String) : Except String String :=
  let v := pyStrip value
  if v = "" then .error (fieldName ++ " must be non-empty")
  else if pyLower v = "unknown" then
    .error (fieldName ++ " must not be \x27Unknown\x27")
  else .ok v

/-- `_require_tag` (intent_structurize_service.py:32-36). -/
def requireTag (value fieldName : String) : Except String String := do
  let v ← requireNonEmpty value fieldName
  if tagMatch v then .ok v
  else .error (fieldName ++ " must match pattern, got: " ++ v)

/-- Raw candidate for the `narrative_analysis` part of the LLM payload
(field values before the pydantic validators run). -/
structure NarrativeAnalysis where
  script_archetype : String
  narrative_chain : String
  pacing : String
deriving DecidableEq, Repr

/-- Raw candidate for the `tactical_breakdown` part. -/
structure TacticalBreakdown where
  opening_strategy : String
  core_selling_points : List String
  closing_trigger : String
  dominant_emotion : String
deriving DecidableEq, Repr

/-- Raw candidate for the `innovation_check` part (no validators). -/
structure InnovationCheck where
  is_innovative : Bool
  unique_tactic_desc : String
deriving DecidableEq, Repr

/-- Raw candidate for the full `IntentAnalysisOutput` payload. -/
structure IntentAnalysisOutput where
  narrative_analysis : NarrativeAnalysis
  tactical_breakdown : TacticalBreakdown
  innovation_check : InnovationCheck
deriving DecidableEq, Repr

/-- `pacing` validator closed set. -/
def pacingAllowed : List String := ["Fast", "Moderate", "Slow"]

/-- `dominant_emotion` validator closed set. -/
def emotionAllowed : List String := ["Excitement", "Anxiety", "Curiosity", "Humor", "Trust"]

/-- The `NarrativeAnalysis` field validators (pydantic collects all field
errors; we model the first failing validator's error, which coincides on
success/failure). -/
def validateNarrative (n : NarrativeAnalysis) : Except String NarrativeAnalysis := do
  let sa ← requireTag n.script_archetype "script_archetype"
  let nc ← requireNonEmpty n.narrative_chain "narrative_chain"
  let nc ← if containsSub nc.toList ['-', '>'] then pure nc
           else .error "narrative_chain must contain ->"
  let p ← requireNonEmpty n.pacing "pacing"
  let p ← if p ∈ pacingAllowed then pure p
          else .error "pacing must be one of [Fast, Moderate, Slow]"
  return { script_archetype := sa, narrative_chain := nc, pacing := p }

/-- The `for item in v[:5]: cleaned.append(_require_tag(item, ...))` loop of
the `core_selling_points` validator. -/
def validateTagList : List String → Except String (List String)
  | [] => .ok []
  | item :: rest => do
    let t ← requireTag item "core_selling_points[]"
    let ts ← validateTagList rest
    return t :: ts

/-- `core_selling_points` validator: at least one item; the first five items
are tag-validated and kept, the rest dropped. -/
def validateSellingPoints (v : List String) : Except String (List String) :=
  if v = [] then .error "core_selling_points must contain at least 1 item"
  else validateTagList (v.take 5)

/-- The `TacticalBreakdown` field validators. -/
def validateTactical (t : TacticalBreakdown) : Except String TacticalBreakdown := do
  let os ← requireTag t.opening_strategy "opening_strategy"
  let csp ← validateSellingPoints t.core_selling_points
  let ct ← requireTag t.closing_trigger "closing_trigger"
  let de ← requireNonEmpty t.dominant_emotion "dominant_emotion"
  let de ← if de ∈ emotionAllowed then pure de
           else .error "dominant_emotion must be one of [Anxiety, Curiosity, Excitement, Humor, Trust]"
  return { opening_strategy := os, core_selling_points := csp,
           closing_trigger := ct, dominant_emotion := de }

/-- Pydantic validation of a full raw payload (both strict structured output
and the fallback `model_validate` run exactly these validators). -/
def validateOutput (o : IntentAnalysisOutput) : Except String IntentAnalysisOutput := do
  let na ← validateNarrative o.narrative_analysis
  let tb ← validateTactical o.tactical_breakdown
  return { narrative_analysis := na, tactical_breakdown := tb,
           innovation_check := o.innovation_check }

/-- Outcome of the first `structured_llm.invoke` attempt, before pydantic
validation: the call fails outright, or the model produced a raw candidate. -/
inductive LlmStructuredOutcome where
  | callFailed (msg : String)
  | produced (raw : IntentAnalysisOutput)
deriving DecidableEq, Repr

/-- `with_structured_output(...).invoke`: validation happens inside the
call; a candidate failing validation raises. -/
def structuredInvoke : LlmStructuredOutcome → Except String IntentAnalysisOutput
  | .callFailed m => .error m
  | .produced raw => validateOutput raw

/-- Oracle for `json.loads` on the brace-extracted fallback substring. -/
inductive JsonDecode where
  | fails (msg : String)
  | decodes (raw : IntentAnalysisOutput)
deriving DecidableEq, Repr

/-- Outcome of the fallback `llm.invoke` free-form completion. -/
inductive FallbackOutcome where
  | callFailed (msg : String)
  | content (text : String) (decode : JsonDecode)
deriving DecidableEq, Repr

/-- `StructuredIntentResult` (intent_structurize_service.py:39-44);
`structured_intent = {}` on failure is modeled as `none`. -/
structure StructuredIntentResult where
  materialId : String
  structured_intent : Option IntentAnalysisOutput
  success : Bool
  error : Option String
deriving DecidableEq, Repr

/-- Failure record (`success=False`, empty payload, error message). -/
def mkFailResult (materialId msg : String) : StructuredIntentResult :=
  { materialId := materialId, structured_intent := none,
    success := false, error := some msg }

/-- Worker for `removeAll`, structurally recursive on a fuel bound (every
step consumes at least one character, so `fuel = l.length` suffices). -/
def removeAllFuel (pat : List Char) : Nat → List Char → List Char
  | 0, _ => []
  | _, [] => []
  | fuel + 1, c :: rest =>
    if pat ≠ [] ∧ (c :: rest).take pat.length = pat then
      removeAllFuel pat fuel ((c :: rest).drop pat.length)
    else c :: removeAllFuel pat fuel rest

/-- Remove every occurrence of `pat` from `l` (Python `str.replace(pat, "")`). -/
def removeAll (pat l : List Char) : List Char :=
  removeAllFuel pat l.length l

/-- The fallback content surgery:
`content.replace("```json", "").replace("```", "").strip()`. -/
def stripCodeFences (text : String) : List Char :=
  trimChars (removeAll ['\x60', '\x60', '\x60'] (removeAll ['\x60', '\x60', '\x60', 'j', 's', 'o', 'n'] (trimChars text.toList)))

/-- Python `s.find(c)` as an `Option` (`none` for `-1`). -/
def findChar (l : List Char) (c : Char) : Option Nat :=
  l.findIdx? (· = c)

/-- Python `s.rfind(c)` as an `Option`. -/
def rfindChar (l : List Char) (c : Char) : Option Nat :=
  (List.range l.length).reverse.find? (fun i => l.getD i ' ' = c)

/-- Embedding of `parse_single_intent_analysis`
(intent_structurize_service.py:57-209).  `attempt1` is the strict
structured-output attempt, `fallback` the single free-form re-parse
attempt, `elapsed` the wall-clock seconds the call took (the code only
compares it with `timeout` to log a warning — it does not alter the
result), `timeout` the configured per-item timeout. -/
def parseSingleIntentAnalysis (materialId intentAnalysis : String)
    (attempt1 : LlmStructuredOutcome) (fallback : FallbackOutcome)
    (elapsed timeout : Nat) : StructuredIntentResult :=
  if pyStrip intentAnalysis = "" then
    mkFailResult materialId "Empty intent_analysis"
  else
    -- `elapsed > timeout` only triggers a log line in the source; the
    -- result below is deliberately independent of it (see claim C3).
    let _ := elapsed > timeout
    let succeed := fun (out : IntentAnalysisOutput) =>
      { materialId := materialId, structured_intent := some out,
        success := true, error := (none : Option String) }
    match structuredInvoke attempt1 with
    | .ok out => succeed out
    | .error structuredError =>
      match fallback with
      | .callFailed m => mkFailResult materialId m
      | .content text decode =>
        let content := stripCodeFences text
        match findChar content '\x7b', rfindChar content '\x7d' with
        | some start, some stop =>
          if stop ≤ start then mkFailResult materialId structuredError
          else
            match decode with
            | .fails m => mkFailResult materialId m
            | .decodes raw =>
              match validateOutput raw with
              | .ok out => succeed out
              | .error m => mkFailResult materialId m
        | _, _ => mkFailResult materialId structuredError

/-- `extract_videos_from_vkdb_response`
(intent_structurize_service.py:212-247): skip non-object entries, entries
with no extractable material id, and entries with empty `intent_analysis`. -/
structure VkdbVideo where
  materialId : String
  intentAnalysis : String
deriving DecidableEq, Repr

/-- `extract_videos_from_vkdb_response`. -/
def extractVideosFromVkdbResponse (resp : VkdbResponse) : List VkdbVideo :=
  resp.data.filterMap fun item =>
    match item with
    | .other => none
    | .obj fields =>
      match (extractJoinInfoFromVkdbItem fields).materialId with
      | none => none
      | some mid =>
        if pyStrip fields.intent_analysis = "" then none
        else some { materialId := mid, intentAnalysis := fields.intent_analysis }

/-- How one submitted future resolves in the `as_completed` loop
(intent_structurize_service.py:308-335).  `completes` is the normal case
(`parse_single_intent_analysis` itself never raises: it catches every
exception); the `timesOut`/`raises` constructors embed the loop's two
`except` branches. -/
inductive FutureResolution where
  | completes (attempt1 : LlmStructuredOutcome) (fallback : FallbackOutcome) (elapsed : Nat)
  | timesOut
  | raises (msg : String)

/-- The record appended to `results` for one resolved future. -/
def resolveOne (timeout : Nat) (v : VkdbVideo) : FutureResolution → StructuredIntentResult
  | .completes a f e => parseSingleIntentAnalysis v.materialId v.intentAnalysis a f e timeout
  | .timesOut => mkFailResult v.materialId "Task timeout"
  | .raises m => mkFailResult v.materialId m

/-- Embedding of `structurize_intents_batch`
(intent_structurize_service.py:250-347).  `order` is the completion order
produced by `as_completed` (a permutation of the submitted indices — the
per-claim theorems take that as a hypothesis); `resolutions i` is how the
future of submitted item `i` resolves. -/
def structurizeIntentsBatch (resp : VkdbResponse) (timeout : Nat)
    (order : List Nat) (resolutions : Nat → FutureResolution) :
    List StructuredIntentResult :=
  let videos := extractVideosFromVkdbResponse resp
  if videos.length = 0 then []
  else order.filterMap fun i =>
    (videos.get? i).map fun v => resolveOne timeout v (resolutions i)

/-! ## `src/infra/mysql/tools.py` and `src/services/vkdb_mysql_service.py`

The composed SQL statement is modeled structurally (table, LIKE keyword and
the IN-clause shape) rather than as the final SQL text; the MySQL server is
an oracle from the composed statement to rows.  Rows are opaque to every
claim below, so they are modeled by an opaque carrier. -/

/-- Allowed characters of `INFLUENCER_ALLOWED`
(`^[CJK A-Za-z0-9 \t.\-_()（）·]+$`, mysql tools.py:29). -/
def influencerChar (c : Char) : Bool :=
  (0x4e00 ≤ c.toNat && c.toNat ≤ 0x9fff) || c.isAlpha || c.isDigit ||
  c == ' ' || c == '\t' || c == '.' || c == '-' || c == '_' ||
  c == '(' || c == ')' || c == '（' || c == '）' || c == '·'

/-- `INFLUENCER_ALLOWED.match` (nonempty, all characters allowed). -/
def influencerAllowed (s : String) : Bool :=
  !s.toList.isEmpty && s.toList.all influencerChar

/-- The shape of the `materialId` filter in the composed statement:
`1=0` (forced empty), `1=1` (no filter) or `materialId in (...)`. -/
inductive SqlInClause where
  | forcedEmpty
  | noFilter
  | inList (ids : List String)
deriving DecidableEq, Repr

/-- The composed ROI2 SELECT, structurally. -/
structure ComposedSql where
  influencer : String
  table : String
  inClause : SqlInClause
deriving DecidableEq, Repr

/-- Embedding of `compose_mysql_sql` (mysql tools.py:66-109). -/
def composeMysqlSql (influencer : String) (materialIds : List String)
    (table : String) (requireIn : Bool) : Except String ComposedSql :=
  if influencer = "" then .error "influencer is empty"
  else if !influencerAllowed influencer then
    .error ("influencer contains illegal chars: " ++ influencer)
  else
    .ok { influencer := influencer, table := table,
          inClause :=
            if materialIds.length = 0 ∧ requireIn then .forcedEmpty
            else if materialIds.length = 0 then .noFilter
            else .inList materialIds }

/-- Opaque stand-in for one MySQL row (no claim below reads row contents). -/
structure MysqlRow where
  raw : String
deriving DecidableEq, Repr

/-- Inner loop of `_extract_material_ids_and_tos`
(vkdb_mysql_service.py:102-117): collect tos urls, collect unseen material
ids, and `break` out of the whole loop as soon as `max_n` ids are held. -/
def extractIdsLoop (maxN : Nat) :
    List VkdbDatum → List String → List String → List String × List String
  | [], ids, tos => (ids, tos)
  | item :: rest, ids, tos =>
    match item with
    | .other => extractIdsLoop maxN rest ids tos
    | .obj fields =>
      let joinInfo := extractJoinInfoFromVkdbItem fields
      let tos := if joinInfo.tosUrl ≠ "" then tos ++ [joinInfo.tosUrl] else tos
      match joinInfo.materialId with
      | none => extractIdsLoop maxN rest ids tos
      | some mid =>
        if mid ∈ ids then extractIdsLoop maxN rest ids tos
        else
          let ids := ids ++ [mid]
          if maxN ≤ ids.length then (ids, tos)
          else extractIdsLoop maxN rest ids tos

/-- `_extract_material_ids_and_tos` (vkdb_mysql_service.py:92-119). -/
def extractMaterialIdsAndTos (resp : VkdbResponse) (maxN : Nat) :
    List String × List String :=
  extractIdsLoop maxN resp.data [] []

/-- The material id one data entry contributes (non-objects contribute
nothing). -/
def datumMid : VkdbDatum → Option String
  | .other => none
  | .obj fields => (extractJoinInfoFromVkdbItem fields).materialId

/-- The material id each data entry contributes (before dedup/cap), in
response order; the specification yardstick for claim C10. -/
def allMaterialIds (resp : VkdbResponse) : List String :=
  resp.data.filterMap datumMid

/-- Successful result of `vkdb_response_to_mysql_join`
(vkdb_mysql_service.py:176-189); the `analysis` sub-object is not modeled
(no claim reads it). -/
structure JoinOut where
  influencer : String
  vkdbReturned : Nat
  tosUrls : List String
  materialIds : List String
  mysqlTable : String
  rowCount : Nat
  rows : List MysqlRow
deriving DecidableEq, Repr

/-- Embedding of `vkdb_response_to_mysql_join`
(vkdb_mysql_service.py:122-189).  `queryOracle` models the MySQL server
(`query_mysql` fetches at most `mysqlMaxRows` rows and reports
`row_count = len(rows)`); `.error` models the `RuntimeError`s raised. -/
def vkdbResponseToMysqlJoin (vkdbResponse : Option VkdbResponse)
    (influencer : String) (mysqlMaxIn : Nat) (mysqlTable : String)
    (mysqlMaxRows : Nat) (requireIn : Bool)
    (queryOracle : ComposedSql → List MysqlRow) : Except String JoinOut :=
  match vkdbResponse with
  | none => .error "vkdb_response is required"
  | some resp =>
    let influencer := pyStrip influencer
    if influencer = "" then .error "influencer is required"
    else
      let returned := resp.data.length
      let (materialIds, tosUrls) := extractMaterialIdsAndTos resp mysqlMaxIn
      if materialIds = [] then
        .error "No material_ids extracted from vkdb landscape_video. Check output_fields and URL format."
      else
        match composeMysqlSql influencer materialIds mysqlTable requireIn with
        | .error e => .error e
        | .ok sql =>
          let rows := (queryOracle sql).take mysqlMaxRows
          .ok { influencer := influencer, vkdbReturned := returned,
                tosUrls := tosUrls, materialIds := materialIds,
                mysqlTable := mysqlTable, rowCount := rows.length, rows := rows }

/-- Partial state update returned by `mysql_join_node` (nodes.py:390-465);
only the fields the node writes appear (in particular the node never writes
`structured_intents`). -/
structure MysqlJoinNodeOut where
  mysql_join_result : Option JoinOut
  final_summary : Option String
  vkdb_influencer : Option String
  error : Option String
deriving DecidableEq, Repr

/-- Embedding of the `mysql_join` node body: guard on a missing response,
pass through when the upstream found nothing, otherwise run the join and
catch its exception into the `error` field. -/
def mysqlJoinNode (vkdbResponse : Option VkdbResponse)
    (vkdbNoResult : Option Bool) (upstreamSummary : Option String)
    (influencer : String) (mysqlMaxIn : Nat) (mysqlTable : String)
    (mysqlMaxRows : Nat)
    (queryOracle : ComposedSql → List MysqlRow) : MysqlJoinNodeOut :=
  match vkdbResponse with
  | none =>
    { mysql_join_result := none, final_summary := none,
      vkdb_influencer := none, error := some "No vkdb_response for MySQL join" }
  | some _ =>
    if vkdbNoResult = some true then
      { mysql_join_result := none, final_summary := upstreamSummary,
        vkdb_influencer := some influencer, error := none }
    else
      match vkdbResponseToMysqlJoin vkdbResponse influencer mysqlMaxIn
          mysqlTable mysqlMaxRows true queryOracle with
      | .ok r =>
        { mysql_join_result := some r, final_summary := none,
          vkdb_influencer := none, error := none }
      | .error e =>
        { mysql_join_result := none, final_summary := none,
          vkdb_influencer := none,
          error := some ("MySQL join failed: " ++ e) }

/-! ## `src/graphs/agent_graph/graph.py` — routing -/

/-- The graph's nodes. -/
inductive GNode where
  | intent_analysis
  | vkdb_search
  | intent_structurize
  | mysql_join
  | data_aggregate
  | llm_analyze
  | llm_summarize
  | simple_chat
deriving DecidableEq, Repr

/-- The state keys declared as channels by `AgentState` (state.py:8-27;
`messages` comes from `MessagesState`).  LangGraph builds its state
channels from these type hints; a node's write to any key outside this
list is silently dropped by the executor. -/
def agentStateChannels : List String :=
  ["messages", "intent", "vkdb_query", "vkdb_influencer", "vkdb_response",
   "vkdb_no_result", "mysql_join_result", "final_summary", "error"]

/-- The slice of the `AgentState` dict the routing functions read: only
declared channels exist in the state (state.py). -/
structure RouteState where
  intent : Option String
  vkdb_no_result : Option Bool
deriving Repr

/-- `state.get("structured_intents")` as the routing functions observe it:
`structured_intents` is not among `agentStateChannels`, so the executor
drops `intent_structurize_node`'s write to it and the `dict.get` read
always yields `None`. -/
def getStructuredIntents (_ : RouteState) :
    Option (List StructuredIntentResult) :=
  none

/-- `route_after_intent` (graph.py:56-73). -/
def routeAfterIntent (s : RouteState) : String :=
  if s.intent = some "vkdb_search" then "vkdb_search"
  else if s.intent = some "simple_chat" then "simple_chat"
  else "simple_chat"

/-- Python truthiness of `state.get("vkdb_no_result")`. -/
def noResultTruthy (s : RouteState) : Bool :=
  s.vkdb_no_result = some true

/-- `route_after_vkdb` (graph.py:85-92). -/
def routeAfterVkdb (s : RouteState) : String :=
  if noResultTruthy s then "end" else "mysql_join"

/-- `route_after_structurize` (graph.py:104-126).  Every branch — feature
disabled, empty/missing result list, success rate below one half, success
rate at least one half — returns the label `"mysql_join"`; the success-rate
comparison `success_count / len < 0.5` is embedded as
`2 * success_count < len` (they agree exactly for the list sizes this
service produces). -/
def routeAfterStructurize (structurizeEnabled : Bool) (s : RouteState) : String :=
  if !structurizeEnabled then "mysql_join"
  else
    match getStructuredIntents s with
    | none => "mysql_join"
    | some l =>
      if l.length = 0 then "mysql_join"
      else
        let successCount := l.countP (·.success)
        if 2 * successCount < l.length then "mysql_join" -- degrade branch
        else "mysql_join" -- enriched branch: same label
/-- `route_after_mysql` (graph.py:137-147): the only data consulted is
whether `state.get("structured_intents")` is a nonempty list — and that
read is always `None` (`getStructuredIntents`), so the function always
returns `"llm_summarize"`. -/
def routeAfterMysql (s : RouteState) : String :=
  match getStructuredIntents s with
  | some l => if 0 < l.length then "data_aggregate" else "llm_summarize"
  | none => "llm_summarize"

/-- The compiled graph's next-node function (`build_agent_graph`,
graph.py:40-170): conditional edges use the routing functions with their
label→node mappings (note `"mysql_join" ↦ intent_structurize` after
`vkdb_search`); static edges connect the tail of the pipeline.  `none` is
`END`. -/
def nextNode (structurizeEnabled : Bool) (n : GNode) (s : RouteState) :
    Option GNode :=
  match n with
  | .intent_analysis =>
    if routeAfterIntent s = "vkdb_search" then some .vkdb_search
    else some .simple_chat
  | .vkdb_search =>
    if routeAfterVkdb s = "end" then none else some .intent_structurize
  | .intent_structurize =>
    -- the mapping sends the (only) label "mysql_join" to the mysql_join
    -- node; `routeAfterStructurize` returns it on every branch
    if routeAfterStructurize structurizeEnabled s = "mysql_join" then
      some .mysql_join
    else some .mysql_join
  | .mysql_join =>
    if routeAfterMysql s = "data_aggregate" then some .data_aggregate
    else some .llm_summarize
  | .data_aggregate => some .llm_analyze
  | .llm_analyze => some .llm_summarize
  | .llm_summarize => none
  | .simple_chat => none

/-! ## `src/graphs/agent_graph/nodes.py` — `vkdb_search` node -/

/-- Partial state update returned by `vkdb_search_node` (nodes.py:245-387);
only fields the node writes. -/
structure VkdbSearchNodeOut where
  vkdb_response : Option VkdbResponse
  final_summary : Option String
  vkdb_influencer : Option String
  vkdb_no_result : Option Bool
  error : Option String
deriving Repr

/-- The fixed not-found message (nodes.py:371). -/
def notFoundMessage : String := "当前未收录该达人"

/-- Embedding of the `vkdb_search` node body for the multi-modal search
method.  `toolResult` is the search collaborator's answer (`.error` models
the tool raising).  Guards mirror nodes.py:263-281; the zero-result branch
mirrors nodes.py:366-379. -/
def vkdbSearchNode (intent : Option String) (query influencerHint : String)
    (toolResult : Except String VkdbResponse) : VkdbSearchNodeOut :=
  if intent ≠ some "vkdb_search" then
    { vkdb_response := none, final_summary := none, vkdb_influencer := none,
      vkdb_no_result := none, error := some "Invalid intent for vkdb_search node" }
  else if query = "" then
    { vkdb_response := none, final_summary := none, vkdb_influencer := none,
      vkdb_no_result := none, error := some "No query provided" }
  else
    let influenceValue := if pyStrip influencerHint ≠ "" then pyStrip influencerHint else query
    match toolResult with
    | .error e =>
      { vkdb_response := none, final_summary := none, vkdb_influencer := none,
        vkdb_no_result := none, error := some ("VikingDB search failed: " ++ e) }
    | .ok resp =>
      if resp.data.length = 0 then
        { vkdb_response := some resp, final_summary := some notFoundMessage,
          vkdb_influencer := some influenceValue, vkdb_no_result := some true,
          error := none }
      else
        { vkdb_response := some resp, final_summary := none,
          vkdb_influencer := some influenceValue, vkdb_no_result := some false,
          error := none }

/-- `intent_structurize_node` result conversion (nodes.py:710-725): the
batch results are returned as-is (same four fields per item) under the
`structured_intents` key — a key outside `agentStateChannels`, so the
executor drops this write (see `getStructuredIntents`). -/
def intentStructurizeNodeList (resp : VkdbResponse) (timeout : Nat)
    (order : List Nat) (resolutions : Nat → FutureResolution) :
    List StructuredIntentResult :=
  structurizeIntentsBatch resp timeout order resolutions

/-! ## `src/services/agent_service.py` — the event/stream reconciler

`agent_stream` is an async generator; its yields are modeled as a list of
typed events (the SSE framing `data: {...}` carries exactly one typed
payload per yield, and the terminal sentinel `[DONE]` is `Ev.done`).  The
underlying `graph.astream_events` stream is the input list `events`; the
re-run of the graph in the no-token fallback (method 2) is the oracle
`retry` (the first truthy `final_summary` it finds, if any); an exception
anywhere in the `try` body is modeled by truncating the yields at an
arbitrary point and appending the `except` branch's yields. -/

/-- One event of the outgoing stream. -/
inductive Ev where
  | status (s : String)
  | token (s : String)
  | error (s : String)
  | done
deriving DecidableEq, Repr

/-- The fields of a captured node/graph output dict that the service reads:
`final_summary` (`none` covers a missing key and an explicit `None`, which
the service treats alike). -/
structure NodeEndOut where
  final_summary : Option String
deriving DecidableEq, Repr

/-- The `astream_events` events the service inspects. -/
inductive GEvent where
  /-- `on_chat_model_stream` with its `langgraph_node` and chunk content
  (`none`: no chunk or contentless chunk). -/
  | chatModelStream (node : String) (chunk : Option String)
  /-- `on_chain_end` carrying a `langgraph_node` name; `output` is `some`
  when the node output is a dict. -/
  | chainEndNode (node : String) (output : Option NodeEndOut)
  /-- `on_chain_end` with no `langgraph_node` (graph-level end); `output`
  is `some` when it is a dict containing the key `final_summary`. -/
  | chainEndRoot (output : Option NodeEndOut)
  /-- `on_tool_start` with the tool name. -/
  | toolStart (name : String)
  /-- `on_chain_start` with the event name. -/
  | chainStart (name : String)
  /-- any other event (ignored). -/
  | other
deriving Repr

/-- `pat in name.lower()`. -/
def lowerContains (name pat : String) : Bool :=
  containsSub (name.toList.map Char.toLower) pat.toList

/-- Loop state of the `async for event in graph.astream_events(...)` loop:
events yielded so far, the `streamed_token` flag, the accumulated token
text, and the captured `final_state`. -/
structure LoopAcc where
  emitted : List Ev
  streamed : Bool
  accumulated : String
  finalState : Option NodeEndOut
deriving Repr

/-- The terminal producing nodes (agent_service.py:91). -/
def terminalNode (node : String) : Bool :=
  node == "llm_summarize" || node == "simple_chat"

/-- One iteration of the event loop (agent_service.py:74-198). -/
def stepEvent (acc : LoopAcc) (e : GEvent) : LoopAcc :=
  match e with
  | .chatModelStream node chunk =>
    if terminalNode node then
      match chunk with
      | some c =>
        if c ≠ "" then
          { acc with streamed := true, accumulated := acc.accumulated ++ c,
                     emitted := acc.emitted ++ [Ev.token c] }
        else acc
      | none => acc
    else acc
  | .chainEndNode node output =>
    if terminalNode node then
      match output with
      | some o => { acc with finalState := some o }
      | none => acc
    else acc
  | .chainEndRoot output =>
    match output with
    | some o => { acc with finalState := some o }
    | none => acc
  | .toolStart name =>
    { acc with emitted := acc.emitted ++ [Ev.status ("正在调用工具: " ++ name ++ "...")] }
  | .chainStart name =>
    if lowerContains name "intent_analysis" then
      { acc with emitted := acc.emitted ++ [Ev.status "正在分析意图..."] }
    else if lowerContains name "vkdb_search" then
      { acc with emitted := acc.emitted ++ [Ev.status "正在搜索VikingDB..."] }
    else if lowerContains name "mysql_join" then
      { acc with emitted := acc.emitted ++ [Ev.status "正在执行MySQL分析..."] }
    else if lowerContains name "llm_summarize" then
      { acc with emitted := acc.emitted ++ [Ev.status "正在生成总结..."] }
    else if lowerContains name "simple_chat" then
      { acc with emitted := acc.emitted ++ [Ev.status "正在思考..."] }
    else acc
  | .other => acc

/-- The initial loop state. -/
def initAcc : LoopAcc :=
  { emitted := [], streamed := false, accumulated := "", finalState := none }

/-- Folding the whole event stream. -/
def foldEvents (events : List GEvent) : LoopAcc :=
  events.foldl stepEvent initAcc

/-- Post-loop chart-increment pass (agent_service.py:203-217): when tokens
were streamed and the captured final summary is truthy and strictly longer
than the accumulated text, the remaining slice is emitted as one `token`
event — but only if it has non-whitespace content (`chart_part.strip()`). -/
def reconcileChart (streamed : Bool) (accumulated : String)
    (finalState : Option NodeEndOut) : List Ev :=
  if streamed then
    match finalState with
    | some o =>
      match o.final_summary with
      | some fs =>
        if fs ≠ "" ∧ accumulated.length < fs.length then
          let chartPart := strDrop fs accumulated.length
          if pyStrip chartPart ≠ "" then [Ev.token chartPart] else []
        else []
      | none => []
    | none => []
  else []

/-- Post-loop no-token fallback (agent_service.py:225-252): when no token
was streamed, take the captured final summary if truthy, else ask the
graph re-run oracle (`retry`); replay the text one `token` event per
character. -/
def reconcileFallback (streamed : Bool) (finalState : Option NodeEndOut)
    (retry : Option String) : List Ev :=
  if streamed then []
  else
    let fromState : Option String :=
      match finalState with
      | some o =>
        match o.final_summary with
        | some fs => if fs ≠ "" then some fs else none
        | none => none
      | none => none
    let finalSummary : Option String :=
      match fromState with
      | some fs => some fs
      | none => retry
    match finalSummary with
    | some fs => fs.toList.map fun c => Ev.token (String.mk [c])
    | none => []

/-- The complete yield sequence of `agent_stream` when no exception occurs
(agent_service.py:56-255): the initial status, the loop yields, the two
post-loop passes, and the `[DONE]` sentinel. -/
def agentStreamNormal (events : List GEvent) (retry : Option String) : List Ev :=
  let acc := foldEvents events
  Ev.status "正在分析您的请求..." :: acc.emitted
    ++ reconcileChart acc.streamed acc.accumulated acc.finalState
    ++ reconcileFallback acc.streamed acc.finalState retry
    ++ [Ev.done]

/-- `agent_stream` with its `except` wrapper (agent_service.py:257-265): an
exception after `k` yields truncates the normal stream there and appends
`error` then `[DONE]`. -/
def agentStreamRun (events : List GEvent) (retry : Option String)
    (exc : Option (Nat × String)) : List Ev :=
  match exc with
  | none => agentStreamNormal events retry
  | some (k, msg) =>
    ((agentStreamNormal events retry).dropLast.take k) ++ [Ev.error msg, Ev.done]

/-! ## Spec-side predicates and concrete inputs used by the claim theorems -/

/-- A validated tag value: non-empty, not the `Unknown` placeholder, and
matching `^[A-Za-z][A-Za-z0-9_]*$`. -/
def ValidTag (s : String) : Prop :=
  s ≠ "" ∧ pyLower s ≠ "unknown" ∧ tagMatch s = true

/-- The required-field contract of claim C9, over a structured payload:
every required string field non-empty and not the `Unknown` placeholder,
the enumerated fields restricted to their closed sets, and at least one
element in `core_selling_points`. -/
def ContractHolds (o : IntentAnalysisOutput) : Prop :=
  ValidTag o.narrative_analysis.script_archetype ∧
  o.narrative_analysis.narrative_chain ≠ "" ∧
  pyLower o.narrative_analysis.narrative_chain ≠ "unknown" ∧
  containsSub o.narrative_analysis.narrative_chain.toList ['-', '>'] = true ∧
  o.narrative_analysis.pacing ∈ pacingAllowed ∧
  ValidTag o.tactical_breakdown.opening_strategy ∧
  o.tactical_breakdown.core_selling_points ≠ [] ∧
  (∀ p ∈ o.tactical_breakdown.core_selling_points, ValidTag p) ∧
  ValidTag o.tactical_breakdown.closing_trigger ∧
  o.tactical_breakdown.dominant_emotion ∈ emotionAllowed

/-- A VikingDB response with one record whose join-key field holds a
non-numeric filename: the premise of claim C2. -/
def c2Response : VkdbResponse :=
  { data := [ .obj { landscape_video := .str "tos://bucket/path/video_abc.mp4",
                     intent_analysis := "段落型意图分析文本" } ] }

/-- A raw LLM candidate that passes every validator (all fields already
stripped). -/
def validCandidate : IntentAnalysisOutput :=
  { narrative_analysis :=
      { script_archetype := "Hero_Journey",
        narrative_chain := "Hook -> Build -> Close",
        pacing := "Fast" },
    tactical_breakdown :=
      { opening_strategy := "Bold_Question",
        core_selling_points := ["Price_Anchor"],
        closing_trigger := "Urgency_Push",
        dominant_emotion := "Trust" },
    innovation_check := { is_innovative := false, unique_tactic_desc := "" } }

/-- Curiosity variant failing validation (`pacing` outside the closed set). -/
def invalidCandidate : IntentAnalysisOutput :=
  { narrative_analysis :=
      { script_archetype := "Hero_Journey",
        narrative_chain := "Hook -> Build -> Close",
        pacing := "VeryFast" },
    tactical_breakdown :=
      { opening_strategy := "Bold_Question",
        core_selling_points := ["Price_Anchor"],
        closing_trigger := "Urgency_Push",
        dominant_emotion := "Trust" },
    innovation_check := { is_innovative := false, unique_tactic_desc := "" } }

/-- Events of the C7 counterexample: the terminal node streams the token
`"a"` and its captured final summary is `"a "` — the accumulated text is a
strict prefix whose remaining suffix is pure whitespace. -/
def c7Events : List GEvent :=
  [ GEvent.chatModelStream "llm_summarize" (some "a"),
    GEvent.chainEndNode "llm_summarize" (some { final_summary := some "a " }) ]

/-- A two-record VikingDB response used by the batch witnesses. -/
def batchResponse : VkdbResponse :=
  { data :=
      [ .obj { landscape_video := .str "tos://b/7549416067249274934.mp4",
               intent_analysis := "文本一" },
        .obj { landscape_video := .str "tos://b/123.mp4",
               intent_analysis := "文本二" } ] }

/-- A response with a duplicate join key and a keyless record, for the C10
witness. -/
def dupResponse : VkdbResponse :=
  { data :=
      [ .obj { landscape_video := .str "tos://b/111.mp4", intent_analysis := "" },
        .obj { landscape_video := .str "tos://b/nokey", intent_analysis := "" },
        .obj { landscape_video := .str "tos://b/222.mp4", intent_analysis := "" },
        .obj { landscape_video := .str "tos://b/111.mp4", intent_analysis := "" },
        .obj { landscape_video := .str "tos://b/333.mp4", intent_analysis := "" } ] }

/-- Events the `try` body of `agent_stream` can yield (status and token
only; `error` is yielded only by the `except` handler and `done` only as
the terminal sentinel). -/
def isBodyEv : Ev → Bool
  | .status _ => true
  | .token _ => true
  | .error _ => false
  | .done => false

/-! ## Theorems -/

/-- C1.  In a run whose batch structurization produced a non-empty result
list with success rate below one half, execution after the Join node routes
directly to Summarize and never visits Aggregate or Analyze:
`structured_intents` is not a declared `AgentState` channel, so the
executor drops `intent_structurize_node`'s write, `route_after_mysql`
reads `None` and returns `"llm_summarize"`, and the run goes
`intent_structurize → mysql_join → llm_summarize → END`. -/
theorem c1_low_success_routes_directly_to_summarize
    (enabled : Bool) (s : RouteState)
    (results : List StructuredIntentResult)
    (hne : results ≠ [])
    (hlow : 2 * results.countP (·.success) < results.length) :
    "structured_intents" ∉ agentStateChannels ∧
    getStructuredIntents s = none ∧
    routeAfterStructurize enabled s = "mysql_join" ∧
    routeAfterMysql s = "llm_summarize" ∧
    nextNode enabled GNode.mysql_join s = some GNode.llm_summarize ∧
    nextNode enabled GNode.llm_summarize s = none := by
  refine ⟨by decide, rfl, ?_, rfl, rfl, rfl⟩
  cases enabled <;> rfl

/-- Witness for C1 at a concrete routing state and a concrete one-element
all-failed batch result list (success rate 0). -/
theorem c1_low_success_routes_directly_to_summarize_witness :
    (([{ materialId := "7549416067249274934", structured_intent := none,
         success := false, error := some "ValidationError" }]
       : List StructuredIntentResult) ≠ [] ∧
     2 * ([{ materialId := "7549416067249274934", structured_intent := none,
             success := false, error := some "ValidationError" }]
       : List StructuredIntentResult).countP (·.success)
       < ([{ materialId := "7549416067249274934", structured_intent := none,
             success := false, error := some "ValidationError" }]
       : List StructuredIntentResult).length) ∧
    ("structured_intents" ∉ agentStateChannels ∧
     getStructuredIntents
        { intent := some "vkdb_search", vkdb_no_result := some false } = none ∧
     routeAfterStructurize true
        { intent := some "vkdb_search", vkdb_no_result := some false }
        = "mysql_join" ∧
     routeAfterMysql
        { intent := some "vkdb_search", vkdb_no_result := some false }
        = "llm_summarize" ∧
     nextNode true GNode.mysql_join
        { intent := some "vkdb_search", vkdb_no_result := some false }
        = some GNode.llm_summarize ∧
     nextNode true GNode.llm_summarize
        { intent := some "vkdb_search", vkdb_no_result := some false }
        = none) :=
  ⟨⟨by decide, by decide⟩,
   c1_low_success_routes_directly_to_summarize true
     { intent := some "vkdb_search", vkdb_no_result := some false }
     [{ materialId := "7549416067249274934", structured_intent := none,
        success := false, error := some "ValidationError" }]
     (by decide) (by decide)⟩

/-- C2 (code bug).  When the search returns one record whose join-key field
is a non-numeric filename, `vkdb_response_to_mysql_join` raises
(`No material_ids extracted ...`) before composing any SQL — although
`compose_mysql_sql` itself implements the documented `require_in` empty-ids
path that would force an empty result set (last conjunct).  The
`mysql_join` node therefore records an error and leaves
`mysql_join_result = None`, instead of completing with a join result
carrying `row_count = 0` as the claim states. -/
theorem c2_nonnumeric_key_raises_instead_of_empty_join :
    ∀ queryOracle : ComposedSql → List MysqlRow,
      vkdbResponseToMysqlJoin (some c2Response) "李诞" 100
          "mandasike_qianchuan_room_daily_dimension" 5000 true queryOracle
        = .error "No material_ids extracted from vkdb landscape_video. Check output_fields and URL format." ∧
      (mysqlJoinNode (some c2Response) (some false) none "李诞" 100
          "mandasike_qianchuan_room_daily_dimension" 5000 queryOracle).mysql_join_result
        = none ∧
      (mysqlJoinNode (some c2Response) (some false) none "李诞" 100
          "mandasike_qianchuan_room_daily_dimension" 5000 queryOracle).error
        = some "MySQL join failed: No material_ids extracted from vkdb landscape_video. Check output_fields and URL format." ∧
      composeMysqlSql "李诞" [] "mandasike_qianchuan_room_daily_dimension" true
        = .ok { influencer := "李诞",
                table := "mandasike_qianchuan_room_daily_dimension",
                inClause := SqlInClause.forcedEmpty } := by
  intro queryOracle
  refine ⟨rfl, rfl, rfl, rfl⟩

/-- C3 (code bug).  A batch item whose transform call takes longer than the
configured per-item timeout (25s against a 20s timeout here) and then
returns a valid payload is still recorded as `succeeded = true` with no
error: `parse_single_intent_analysis` compares the elapsed time with the
timeout only to log a warning, and the `future.result(timeout + 5)` call of
the collection loop sits behind `as_completed`, which yields only
already-finished futures.  No hard per-item timeout is enforced, so no
`errorDetail = "timeout"` record is produced for the over-long item. -/
theorem c3_overlong_item_still_recorded_success :
    parseSingleIntentAnalysis "7549416067249274934" "分析文本"
        (LlmStructuredOutcome.produced validCandidate)
        (FallbackOutcome.callFailed "unused") 25 20
      = { materialId := "7549416067249274934",
          structured_intent := some validCandidate,
          success := true, error := none } := by
  decide

/-- C6.  When the search collaborator returns zero records, the
`vkdb_search` node writes the fixed not-found summary and
`vkdb_no_result = True`, and the router sends `vkdb_search` straight to
`END`: the structurize/join/aggregate/analyze/summarize nodes are never
reached. -/
theorem c6_zero_results_short_circuit (query influencerHint : String)
    (resp : VkdbResponse) (enabled : Bool) (s : RouteState)
    (hdata : resp.data = []) (hq : query ≠ "")
    (hs : s.vkdb_no_result =
      (vkdbSearchNode (some "vkdb_search") query influencerHint
        (.ok resp)).vkdb_no_result) :
    (vkdbSearchNode (some "vkdb_search") query influencerHint
        (.ok resp)).final_summary = some notFoundMessage ∧
    (vkdbSearchNode (some "vkdb_search") query influencerHint
        (.ok resp)).vkdb_no_result = some true ∧
    routeAfterVkdb s = "end" ∧
    nextNode enabled GNode.vkdb_search s = none := by
  have h0 : resp.data.length = 0 := by rw [hdata]; rfl
  have hnode : vkdbSearchNode (some "vkdb_search") query influencerHint (.ok resp)
      = { vkdb_response := some resp, final_summary := some notFoundMessage,
          vkdb_influencer := some (if pyStrip influencerHint ≠ "" then pyStrip influencerHint else query),
          vkdb_no_result := some true, error := none } := by
    unfold vkdbSearchNode
    rw [if_neg (by simp), if_neg hq]
    simp [h0]
  rw [hnode] at hs ⊢
  have hflag : s.vkdb_no_result = some true := hs
  refine ⟨rfl, rfl, ?_, ?_⟩
  · simp [routeAfterVkdb, noResultTruthy, hflag]
  · simp [nextNode, routeAfterVkdb, noResultTruthy, hflag]

/-- Witness for C6 at a concrete zero-record response. -/
theorem c6_zero_results_short_circuit_witness :
    (⟨[]⟩ : VkdbResponse).data = [] ∧ ("找李诞" : String) ≠ "" ∧
    ((vkdbSearchNode (some "vkdb_search") "找李诞" "" (.ok ⟨[]⟩)).final_summary
        = some notFoundMessage ∧
     (vkdbSearchNode (some "vkdb_search") "找李诞" "" (.ok ⟨[]⟩)).vkdb_no_result
        = some true ∧
     routeAfterVkdb { intent := some "vkdb_search",
                      vkdb_no_result := some true } = "end" ∧
     nextNode true GNode.vkdb_search
        { intent := some "vkdb_search", vkdb_no_result := some true }
        = none) :=
  ⟨rfl, by decide,
   c6_zero_results_short_circuit "找李诞" "" ⟨[]⟩ true
     { intent := some "vkdb_search", vkdb_no_result := some true }
     rfl (by decide) (by decide)⟩

/-- The accumulator is a prefix of `firstOccurAux l acc`. -/
theorem firstOccurAux_isPrefixOf (l : List String) :
    ∀ acc, acc <+: firstOccurAux l acc := by
  induction l with
  | nil => intro acc; exact List.prefix_rfl
  | cons x rest ih =>
    intro acc
    by_cases hx : x ∈ acc
    · simpa [firstOccurAux, hx] using ih acc
    · simp only [firstOccurAux, hx, if_false]
      exact (List.prefix_append acc [x]).trans (ih (acc ++ [x]))

/-- `firstOccurAux` preserves `Nodup` of the accumulator. -/
theorem firstOccurAux_nodup (l : List String) :
    ∀ acc, acc.Nodup → (firstOccurAux l acc).Nodup := by
  induction l with
  | nil => intro acc h; exact h
  | cons x rest ih =>
    intro acc h
    by_cases hx : x ∈ acc
    · simpa [firstOccurAux, hx] using ih acc h
    · simp only [firstOccurAux, hx, if_false]
      refine ih (acc ++ [x]) ?_
      simp [List.nodup_append, h, hx]

/-- Taking the length of a prefix recovers the prefix. -/
theorem take_len_of_pref {α : Type} {p l : List α} (h : p <+: l) {n : Nat}
    (hn : p.length = n) : l.take n = p := by
  obtain ⟨t, rfl⟩ := h
  subst hn
  exact List.take_left p t

/-- The id component of `extractIdsLoop` is the capped first-occurrence
deduplication of the ids contributed by the remaining entries, for any
accumulator that is still duplicate-free and below the cap. -/
theorem extractIdsLoop_eq (maxN : Nat) :
    ∀ (items : List VkdbDatum) (ids tos : List String),
      ids.Nodup → ids.length < maxN →
      (extractIdsLoop maxN items ids tos).1
        = (firstOccurAux (items.filterMap datumMid) ids).take maxN := by
  intro items
  induction items with
  | nil =>
    intro ids tos _ hlen
    simp [extractIdsLoop, firstOccurAux, List.take_of_length_le (le_of_lt hlen)]
  | cons item rest ih =>
    intro ids tos hnd hlen
    cases item with
    | other =>
      simpa [extractIdsLoop, List.filterMap_cons, datumMid] using ih ids tos hnd hlen
    | obj fields =>
      simp only [extractIdsLoop, List.filterMap_cons, datumMid]
      cases hmid : (extractJoinInfoFromVkdbItem fields).materialId with
      | none =>
        simp only [hmid]
        exact ih ids _ hnd hlen
      | some mid =>
        simp only [hmid]
        by_cases hmem : mid ∈ ids
        · simp only [hmem, if_true, firstOccurAux]
          exact ih ids _ hnd hlen
        · simp only [hmem, if_false, firstOccurAux]
          by_cases hfull : maxN ≤ (ids ++ [mid]).length
          · have hlen2 : (ids ++ [mid]).length = maxN := by
              simp only [List.length_append, List.length_cons, List.length_nil] at hfull ⊢
              omega
            simp only [hfull, if_true]
            exact (take_len_of_pref (firstOccurAux_isPrefixOf _ _) hlen2).symm
          · push_neg at hfull
            simp only [not_le.mpr hfull, if_false]
            refine ih (ids ++ [mid]) _ ?_ hfull
            simp [List.nodup_append, hnd, hmem]

/-- C10.  The material-id list handed to the SQL IN-clause is the
first-occurrence deduplication of the join keys extracted from the response
data, truncated at the `mysql_max_in` cap: it has no duplicates, preserves
first-occurrence order, and never exceeds the cap (the cap is ≥ 1 by the
settings contract `ge=1`). -/
theorem c10_material_ids_nodup_ordered_capped (resp : VkdbResponse) (maxN : Nat)
    (hmax : 1 ≤ maxN) :
    (extractMaterialIdsAndTos resp maxN).1
        = (firstOccur (allMaterialIds resp)).take maxN ∧
    (extractMaterialIdsAndTos resp maxN).1.Nodup ∧
    (extractMaterialIdsAndTos resp maxN).1.length ≤ maxN := by
  have h : (extractMaterialIdsAndTos resp maxN).1
      = (firstOccurAux (resp.data.filterMap datumMid) []).take maxN :=
    extractIdsLoop_eq maxN resp.data [] [] List.nodup_nil hmax
  refine ⟨h, ?_, ?_⟩
  · rw [h]
    exact ((List.take_sublist _ _).nodup) (firstOccurAux_nodup _ [] List.nodup_nil)
  · rw [h]
    simpa using List.length_take_le maxN _

/-- Witness for C10 on a response with a duplicate join key, a keyless
record, and a cap of 2. -/
theorem c10_material_ids_nodup_ordered_capped_witness :
    1 ≤ 2 ∧
    ((extractMaterialIdsAndTos dupResponse 2).1
        = (firstOccur (allMaterialIds dupResponse)).take 2 ∧
     (extractMaterialIdsAndTos dupResponse 2).1.Nodup ∧
     (extractMaterialIdsAndTos dupResponse 2).1.length ≤ 2) :=
  ⟨by decide, c10_material_ids_nodup_ordered_capped dupResponse 2 (by decide)⟩

/-- Every branch of `parse_single_intent_analysis` binds the result to the
submitted item's material id. -/
theorem parseSingle_materialId (materialId intentAnalysis : String)
    (attempt1 : LlmStructuredOutcome) (fallback : FallbackOutcome)
    (elapsed timeout : Nat) :
    (parseSingleIntentAnalysis materialId intentAnalysis attempt1 fallback
        elapsed timeout).materialId = materialId := by
  simp only [parseSingleIntentAnalysis, mkFailResult]
  repeat' split
  all_goals rfl

/-- Every resolution of a submitted future carries its item's material id. -/
theorem resolveOne_materialId (timeout : Nat) (v : VkdbVideo)
    (r : FutureResolution) :
    (resolveOne timeout v r).materialId = v.materialId := by
  cases r with
  | completes a f e =>
    exact parseSingle_materialId v.materialId v.intentAnalysis a f e timeout
  | timesOut => rfl
  | raises m => rfl

/-- When every index of `order` is in range, the collection loop is a plain
map over the completion order. -/
theorem filterMap_inRange_eq_map (videos : List VkdbVideo)
    (g : Nat → VkdbVideo → StructuredIntentResult) :
    ∀ (order : List Nat), (∀ i ∈ order, i < videos.length) →
      order.filterMap (fun i => (videos.get? i).map fun v => g i v)
        = order.map fun i => g i (videos.getD i ⟨"", ""⟩) := by
  intro order
  induction order with
  | nil => intro _; rfl
  | cons i rest ih =>
    intro hmem
    have hi : i < videos.length := hmem i (by simp)
    have hv : videos.get? i = some (videos.getD i ⟨"", ""⟩) := by
      rw [List.getD_eq_get?, List.get?_eq_get hi]
      rfl
    simp only [List.filterMap_cons, hv, Option.map_some', List.map_cons]
    rw [ih (fun j hj => hmem j (by simp [hj]))]

/-- Mapping an indexed access over `range` recovers a plain map. -/
theorem map_getD_range (f : VkdbVideo → String) :
    ∀ (l : List VkdbVideo),
      (List.range l.length).map (fun i => f (l.getD i ⟨"", ""⟩)) = l.map f := by
  intro l
  induction l with
  | nil => rfl
  | cons a t ih =>
    have hcomp : ((fun i => f ((a :: t).getD i ⟨"", ""⟩)) ∘ (· + 1))
        = fun i => f (t.getD i ⟨"", ""⟩) := funext fun i => rfl
    rw [List.length_cons, List.range_succ_eq_map, List.map_cons, List.map_map,
      hcomp, ih]
    rfl

/-- C4.  The batch runner returns exactly one result per submitted item
(the items surviving pre-filtering in `extract_videos_from_vkdb_response`),
whatever completion order `as_completed` produces and however each future
resolves; each result carries its own item's material id (as a multiset the
result ids are exactly the submitted ids).  In particular the runner never
returns fewer records than submitted items. -/
theorem c4_batch_one_result_per_item (resp : VkdbResponse) (timeout : Nat)
    (order : List Nat) (resolutions : Nat → FutureResolution)
    (hperm : order.Perm
      (List.range (extractVideosFromVkdbResponse resp).length)) :
    (structurizeIntentsBatch resp timeout order resolutions).length
        = (extractVideosFromVkdbResponse resp).length ∧
    ((structurizeIntentsBatch resp timeout order resolutions).map
        (·.materialId)).Perm
      ((extractVideosFromVkdbResponse resp).map (·.materialId)) := by
  by_cases h0 : (extractVideosFromVkdbResponse resp).length = 0
  · have hnil : extractVideosFromVkdbResponse resp = [] :=
      List.length_eq_zero.mp h0
    have horder : order = [] := by
      have := hperm
      rw [h0, List.range_zero] at this
      exact this.eq_nil
    simp [structurizeIntentsBatch, horder, hnil]
  · have hmem : ∀ i ∈ order, i < (extractVideosFromVkdbResponse resp).length := by
      intro i hi
      have := hperm.mem_iff.mp hi
      simpa [List.mem_range] using this
    have hbatch : structurizeIntentsBatch resp timeout order resolutions
        = order.map fun i =>
            resolveOne timeout ((extractVideosFromVkdbResponse resp).getD i ⟨"", ""⟩)
              (resolutions i) := by
      unfold structurizeIntentsBatch
      rw [if_neg h0]
      exact filterMap_inRange_eq_map _ (fun i v => resolveOne timeout v (resolutions i))
        order hmem
    constructor
    · rw [hbatch]
      simpa using hperm.length_eq
    · rw [hbatch]
      have h1 : (order.map fun i =>
            resolveOne timeout ((extractVideosFromVkdbResponse resp).getD i ⟨"", ""⟩)
              (resolutions i)).map (·.materialId)
          = order.map fun i =>
              ((extractVideosFromVkdbResponse resp).getD i ⟨"", ""⟩).materialId := by
        rw [List.map_map]
        refine List.map_congr_left ?_
        intro i _
        exact resolveOne_materialId _ _ _
      rw [h1]
      have h2 := hperm.map fun i =>
        ((extractVideosFromVkdbResponse resp).getD i ⟨"", ""⟩).materialId
      rw [map_getD_range (·.materialId) (extractVideosFromVkdbResponse resp)] at h2
      exact h2

/-- Witness for C4: two submitted items, completion order reversed, both
futures timing out — still one result per item with matching ids. -/
theorem c4_batch_one_result_per_item_witness :
    ([1, 0].Perm (List.range (extractVideosFromVkdbResponse batchResponse).length)) ∧
    ((structurizeIntentsBatch batchResponse 20 [1, 0] (fun _ => .timesOut)).length
        = (extractVideosFromVkdbResponse batchResponse).length ∧
     ((structurizeIntentsBatch batchResponse 20 [1, 0] (fun _ => .timesOut)).map
        (·.materialId)).Perm
      ((extractVideosFromVkdbResponse batchResponse).map (·.materialId))) :=
  ⟨by decide,
   c4_batch_one_result_per_item batchResponse 20 [1, 0] (fun _ => .timesOut)
     (by decide)⟩

/-- `_require_non_empty` only accepts non-empty, non-`Unknown` values. -/
theorem requireNonEmpty_ok {v f w : String} (h : requireNonEmpty v f = .ok w) :
    w ≠ "" ∧ pyLower w ≠ "unknown" := by
  simp only [requireNonEmpty] at h
  split at h
  · exact absurd h (by simp)
  · split at h
    · exact absurd h (by simp)
    · cases h
      constructor <;> assumption

/-- `_require_tag` only accepts valid tags. -/
theorem requireTag_ok {v f w : String} (h : requireTag v f = .ok w) :
    ValidTag w := by
  unfold requireTag at h
  cases hr : requireNonEmpty v f with
  | error e =>
    rw [hr] at h
    exact absurd h (by simp [Bind.bind, Except.bind])
  | ok u =>
    rw [hr] at h
    simp only [Bind.bind, Except.bind] at h
    split at h
    · cases h
      obtain ⟨h1, h2⟩ := requireNonEmpty_ok hr
      exact ⟨h1, h2, by assumption⟩
    · exact absurd h (by simp)

/-- The `core_selling_points` item loop only accepts valid tags and keeps
the submitted length. -/
theorem validateTagList_ok :
    ∀ {l r : List String}, validateTagList l = .ok r →
      (∀ x ∈ r, ValidTag x) ∧ r.length = l.length := by
  intro l
  induction l with
  | nil =>
    intro r h
    cases h
    exact ⟨fun x hx => absurd hx (by simp), rfl⟩
  | cons a t ih =>
    intro r h
    unfold validateTagList at h
    cases ha : requireTag a "core_selling_points[]" with
    | error e =>
      rw [ha] at h
      exact absurd h (by simp [Bind.bind, Except.bind])
    | ok u =>
      rw [ha] at h
      cases ht : validateTagList t with
      | error e =>
        rw [ht] at h
        exact absurd h (by simp [Bind.bind, Except.bind])
      | ok ts =>
        rw [ht] at h
        simp only [Bind.bind, Except.bind, pure, Except.pure] at h
        cases h
        obtain ⟨hall, hlen⟩ := ih ht
        refine ⟨?_, by simp [hlen]⟩
        intro x hx
        rcases List.mem_cons.mp hx with hx | hx
        · subst hx; exact requireTag_ok ha
        · exact hall x hx

/-- `core_selling_points` validation yields a non-empty list of valid tags. -/
theorem validateSellingPoints_ok {v r : List String}
    (h : validateSellingPoints v = .ok r) :
    r ≠ [] ∧ ∀ x ∈ r, ValidTag x := by
  unfold validateSellingPoints at h
  split at h
  · exact absurd h (by simp)
  · obtain ⟨hall, hlen⟩ := validateTagList_ok h
    refine ⟨?_, hall⟩
    have hv : v ≠ [] := by assumption
    intro hr
    rw [hr] at hlen
    have : (v.take 5).length = 0 := hlen.symm
    rw [List.length_take] at this
    rcases Nat.min_eq_zero_iff.mp this with h5 | h0
    · omega
    · exact hv (List.length_eq_zero.mp h0)

/-- `NarrativeAnalysis` validation enforces its fields' contract. -/
theorem validateNarrative_ok {n m : NarrativeAnalysis}
    (h : validateNarrative n = .ok m) :
    ValidTag m.script_archetype ∧ m.narrative_chain ≠ "" ∧
    pyLower m.narrative_chain ≠ "unknown" ∧
    containsSub m.narrative_chain.toList ['-', '>'] = true ∧
    m.pacing ∈ pacingAllowed := by
  unfold validateNarrative at h
  cases h1 : requireTag n.script_archetype "script_archetype" with
  | error e => rw [h1] at h; exact absurd h (by simp [Bind.bind, Except.bind])
  | ok sa =>
  rw [h1] at h
  cases h2 : requireNonEmpty n.narrative_chain "narrative_chain" with
  | error e =>
    rw [h2] at h
    exact absurd h (by simp [Bind.bind, Except.bind])
  | ok nc =>
  rw [h2] at h
  simp only [Bind.bind, Except.bind] at h
  by_cases h3 : containsSub nc.toList ['-', '>'] = true
  · rw [if_pos h3] at h
    cases h4 : requireNonEmpty n.pacing "pacing" with
    | error e => rw [h4] at h; exact absurd h (by simp [pure, Except.pure])
    | ok p =>
    rw [h4] at h
    simp only [pure, Except.pure] at h
    by_cases h5 : p ∈ pacingAllowed
    · rw [if_pos h5] at h
      cases h
      obtain ⟨hnc1, hnc2⟩ := requireNonEmpty_ok h2
      exact ⟨requireTag_ok h1, hnc1, hnc2, h3, h5⟩
    · rw [if_neg h5] at h
      exact absurd h (by simp)
  · rw [if_neg (by simpa using h3)] at h
    exact absurd h (by simp [pure, Except.pure])

/-- `TacticalBreakdown` validation enforces its fields' contract. -/
theorem validateTactical_ok {t m : TacticalBreakdown}
    (h : validateTactical t = .ok m) :
    ValidTag m.opening_strategy ∧ m.core_selling_points ≠ [] ∧
    (∀ p ∈ m.core_selling_points, ValidTag p) ∧
    ValidTag m.closing_trigger ∧ m.dominant_emotion ∈ emotionAllowed := by
  unfold validateTactical at h
  cases h1 : requireTag t.opening_strategy "opening_strategy" with
  | error e => rw [h1] at h; exact absurd h (by simp [Bind.bind, Except.bind])
  | ok os =>
  rw [h1] at h
  cases h2 : validateSellingPoints t.core_selling_points with
  | error e => rw [h2] at h; exact absurd h (by simp [Bind.bind, Except.bind])
  | ok csp =>
  rw [h2] at h
  cases h3 : requireTag t.closing_trigger "closing_trigger" with
  | error e => rw [h3] at h; exact absurd h (by simp [Bind.bind, Except.bind])
  | ok ct =>
  rw [h3] at h
  cases h4 : requireNonEmpty t.dominant_emotion "dominant_emotion" with
  | error e => rw [h4] at h; exact absurd h (by simp [Bind.bind, Except.bind])
  | ok de =>
  rw [h4] at h
  simp only [Bind.bind, Except.bind, pure, Except.pure] at h
  by_cases h5 : de ∈ emotionAllowed
  · rw [if_pos h5] at h
    cases h
    obtain ⟨hne, hall⟩ := validateSellingPoints_ok h2
    exact ⟨requireTag_ok h1, hne, hall, requireTag_ok h3, h5⟩
  · rw [if_neg h5] at h
    exact absurd h (by simp)

/-- Full pydantic validation enforces the C9 contract on the accepted
payload. -/
theorem validateOutput_contract {o m : IntentAnalysisOutput}
    (h : validateOutput o = .ok m) : ContractHolds m := by
  unfold validateOutput at h
  cases h1 : validateNarrative o.narrative_analysis with
  | error e => rw [h1] at h; exact absurd h (by simp [Bind.bind, Except.bind])
  | ok na =>
  rw [h1] at h
  cases h2 : validateTactical o.tactical_breakdown with
  | error e => rw [h2] at h; exact absurd h (by simp [Bind.bind, Except.bind])
  | ok tb =>
  rw [h2] at h
  simp only [Bind.bind, Except.bind, pure, Except.pure] at h
  cases h
  obtain ⟨hna1, hna2, hna3, hna4, hna5⟩ := validateNarrative_ok h1
  obtain ⟨htb1, htb2, htb3, htb4, htb5⟩ := validateTactical_ok h2
  exact ⟨hna1, hna2, hna3, hna4, hna5, htb1, htb2, htb3, htb4, htb5⟩

/-- A successful structured invoke only returns validated payloads. -/
theorem structuredInvoke_ok_contract {a : LlmStructuredOutcome}
    {out : IntentAnalysisOutput} (h : structuredInvoke a = .ok out) :
    ContractHolds out := by
  cases a with
  | callFailed m => exact absurd h (by simp [structuredInvoke])
  | produced raw => exact validateOutput_contract h

/-- C9.  (a) A batch item is recorded `succeeded = true` only when its
transformed payload passed the required-field validation contract (no
empty/placeholder values, `pacing` and `dominant_emotion` in their closed
sets, at least one `core_selling_points` element); (b) when the strict
structured parse succeeds the single fallback re-parse is never consulted;
(c) when the structured parse fails and the one fallback re-parse decodes a
payload that fails validation, the item is recorded `succeeded = false`
carrying that validation error. -/
theorem c9_success_only_after_validation :
    (∀ (id ia : String) (a1 : LlmStructuredOutcome) (fb : FallbackOutcome)
        (e t : Nat),
      (parseSingleIntentAnalysis id ia a1 fb e t).success = true →
      ∃ out, (parseSingleIntentAnalysis id ia a1 fb e t).structured_intent
          = some out ∧ ContractHolds out) ∧
    (∀ (id ia : String) (a1 : LlmStructuredOutcome) (fb fb2 : FallbackOutcome)
        (e t : Nat) (out : IntentAnalysisOutput),
      structuredInvoke a1 = .ok out →
      parseSingleIntentAnalysis id ia a1 fb e t
        = parseSingleIntentAnalysis id ia a1 fb2 e t) ∧
    (∀ (id ia text : String) (a1 : LlmStructuredOutcome)
        (raw : IntentAnalysisOutput) (m1 m : String) (e t s p : Nat),
      pyStrip ia ≠ "" → structuredInvoke a1 = .error m1 →
      findChar (stripCodeFences text) '\x7b' = some s →
      rfindChar (stripCodeFences text) '\x7d' = some p → s < p →
      validateOutput raw = .error m →
      parseSingleIntentAnalysis id ia a1
          (.content text (.decodes raw)) e t = mkFailResult id m) := by
  refine ⟨?_, ?_, ?_⟩
  · intro id ia a1 fb e t hsucc
    by_cases hia : pyStrip ia = ""
    · simp only [parseSingleIntentAnalysis, if_pos hia] at hsucc
      exact absurd hsucc (by simp [mkFailResult])
    · simp only [parseSingleIntentAnalysis, if_neg hia] at hsucc ⊢
      revert hsucc
      cases hsi : structuredInvoke a1 with
      | ok out =>
        intro _
        exact ⟨out, rfl, structuredInvoke_ok_contract hsi⟩
      | error m1 =>
        cases fb with
        | callFailed m =>
          intro hsucc
          simp [mkFailResult] at hsucc
        | content text decode =>
          cases hf : findChar (stripCodeFences text) '\x7b' with
          | none =>
            cases hr : rfindChar (stripCodeFences text) '\x7d' with
            | none =>
              intro hsucc
              simp [mkFailResult, hf, hr] at hsucc
            | some p =>
              intro hsucc
              simp [mkFailResult, hf, hr] at hsucc
          | some s =>
            cases hr : rfindChar (stripCodeFences text) '\x7d' with
            | none =>
              intro hsucc
              simp [mkFailResult, hf, hr] at hsucc
            | some p =>
              intro hsucc
              simp only [hf, hr] at hsucc ⊢
              by_cases hsp : p ≤ s
              · rw [if_pos hsp] at hsucc
                simp [mkFailResult] at hsucc
              · rw [if_neg hsp] at hsucc ⊢
                cases decode with
                | fails m => simp [mkFailResult] at hsucc
                | decodes raw =>
                  cases hv : validateOutput raw with
                  | ok out =>
                    simp only [hv] at hsucc ⊢
                    exact ⟨out, rfl, validateOutput_contract hv⟩
                  | error m =>
                    simp [mkFailResult, hv] at hsucc
  · intro id ia a1 fb fb2 e t out hok
    by_cases hia : pyStrip ia = ""
    · simp only [parseSingleIntentAnalysis, if_pos hia]
    · simp only [parseSingleIntentAnalysis, if_neg hia, hok]
  · intro id ia text a1 raw m1 m e t s p hia hsi hf hr hsp hv
    simp only [parseSingleIntentAnalysis, if_neg hia, hsi, hf, hr]
    rw [if_neg (Nat.not_le.mpr hsp)]
    simp only [hv]

/-- Witness for C9: a validated payload is accepted with the contract in
force, the fallback is ignored when the first parse succeeds, and an
invalid fallback payload (`pacing = "VeryFast"`) yields the validation
failure record. -/
theorem c9_success_only_after_validation_witness :
    ((parseSingleIntentAnalysis "m1" "文本" (.produced validCandidate)
        (.callFailed "u") 3 20).success = true ∧
     (∃ out, (parseSingleIntentAnalysis "m1" "文本" (.produced validCandidate)
        (.callFailed "u") 3 20).structured_intent = some out ∧
        ContractHolds out)) ∧
    parseSingleIntentAnalysis "m1" "文本" (.produced validCandidate)
        (.callFailed "u") 3 20
      = parseSingleIntentAnalysis "m1" "文本" (.produced validCandidate)
        (.callFailed "other") 3 20 ∧
    parseSingleIntentAnalysis "m1" "文本" (.callFailed "boom")
        (.content "\x7b0\x7d" (.decodes invalidCandidate)) 3 20
      = mkFailResult "m1" "pacing must be one of [Fast, Moderate, Slow]" :=
  ⟨⟨rfl, c9_success_only_after_validation.1 "m1" "文本"
      (.produced validCandidate) (.callFailed "u") 3 20 rfl⟩,
   c9_success_only_after_validation.2.1 "m1" "文本"
      (.produced validCandidate) (.callFailed "u") (.callFailed "other") 3 20
      validCandidate rfl,
   c9_success_only_after_validation.2.2 "m1" "文本" "\x7b0\x7d"
      (.callFailed "boom") invalidCandidate "boom"
      "pacing must be one of [Fast, Moderate, Slow]" 3 20 0 2
      (by decide) rfl rfl rfl (by decide) rfl⟩

/-- One loop iteration only appends status/token events. -/
theorem stepEvent_emitted_body (acc : LoopAcc) (e : GEvent)
    (h : acc.emitted.all isBodyEv = true) :
    (stepEvent acc e).emitted.all isBodyEv = true := by
  have hstep : ∀ (l : List Ev) (e2 : Ev), l.all isBodyEv = true →
      isBodyEv e2 = true → (l ++ [e2]).all isBodyEv = true := by
    intro l e2 hl he
    simp [List.all_append, hl, he]
  cases e <;> simp only [stepEvent] <;> repeat' split
  all_goals
    first
      | exact h
      | (apply hstep _ _ h; rfl)

/-- The whole loop only yields status/token events. -/
theorem foldl_emitted_body (events : List GEvent) :
    ∀ acc : LoopAcc, acc.emitted.all isBodyEv = true →
      (events.foldl stepEvent acc).emitted.all isBodyEv = true := by
  induction events with
  | nil => intro acc h; exact h
  | cons e rest ih =>
    intro acc h
    exact ih _ (stepEvent_emitted_body acc e h)

/-- The chart-increment pass yields at most one token event. -/
theorem reconcileChart_body (st : Bool) (acc : String)
    (fs : Option NodeEndOut) :
    (reconcileChart st acc fs).all isBodyEv = true := by
  unfold reconcileChart
  repeat' split
  all_goals simp [isBodyEv]

/-- The no-token fallback yields only token events. -/
theorem reconcileFallback_body (st : Bool) (fs : Option NodeEndOut)
    (retry : Option String) :
    (reconcileFallback st fs retry).all isBodyEv = true := by
  cases retry <;> unfold reconcileFallback <;> repeat' split
  all_goals simp [isBodyEv, List.all_eq_true]

/-- The exception-free stream is a body of status/token events closed by
one `done`. -/
theorem agentStreamNormal_decomp (events : List GEvent) (retry : Option String) :
    ∃ body : List Ev, agentStreamNormal events retry = body ++ [Ev.done] ∧
      body.all isBodyEv = true := by
  refine ⟨Ev.status "正在分析您的请求..." :: ((foldEvents events).emitted
      ++ reconcileChart (foldEvents events).streamed (foldEvents events).accumulated
          (foldEvents events).finalState
      ++ reconcileFallback (foldEvents events).streamed (foldEvents events).finalState
          retry), ?_, ?_⟩
  · simp [agentStreamNormal]
  · simp only [List.all_cons, List.all_append, Bool.and_eq_true]
    exact ⟨rfl, ⟨foldl_emitted_body events initAcc rfl,
      reconcileChart_body _ _ _⟩, reconcileFallback_body _ _ _⟩

/-- C5.  Every run of `agent_stream` — exception or not — ends with exactly
one terminal `[DONE]` sentinel as its last element, and whenever an `error`
event is yielded it is immediately followed by that final `done` with
nothing in between or after. -/
theorem c5_stream_exactly_one_done (events : List GEvent)
    (retry : Option String) (exc : Option (Nat × String)) :
    (agentStreamRun events retry exc).getLast? = some Ev.done ∧
    (agentStreamRun events retry exc).count Ev.done = 1 ∧
    ∀ (i : Nat) (s : String),
      (agentStreamRun events retry exc)[i]? = some (Ev.error s) →
      (agentStreamRun events retry exc)[i + 1]? = some Ev.done ∧
      (agentStreamRun events retry exc).length = i + 2 := by
  obtain ⟨body, hdec, hbody⟩ := agentStreamNormal_decomp events retry
  have hnotdone : Ev.done ∉ body := by
    intro hmem
    simpa [isBodyEv] using List.all_eq_true.mp hbody _ hmem
  have hnoterr : ∀ s, Ev.error s ∉ body := by
    intro s hmem
    simpa [isBodyEv] using List.all_eq_true.mp hbody _ hmem
  cases exc with
  | none =>
    simp only [agentStreamRun, hdec]
    refine ⟨List.getLast?_concat body, ?_, ?_⟩
    · rw [List.count_append]
      rw [List.count_eq_zero.mpr hnotdone]
      rfl
    · intro i s h
      have hmem : Ev.error s ∈ body ++ [Ev.done] := List.getElem?_mem h
      rcases List.mem_append.mp hmem with hmem | hmem
      · exact absurd hmem (hnoterr s)
      · simp at hmem
  | some ks =>
    obtain ⟨k, msg⟩ := ks
    have hdl : (agentStreamNormal events retry).dropLast = body := by
      rw [hdec]
      exact List.dropLast_concat
    simp only [agentStreamRun, hdl]
    have hsub : body.take k ⊆ body := List.take_subset k body
    have hnd : Ev.done ∉ body.take k := fun hm => hnotdone (hsub hm)
    have hne : ∀ s, Ev.error s ∉ body.take k := fun s hm => hnoterr s (hsub hm)
    refine ⟨?_, ?_, ?_⟩
    · have : body.take k ++ [Ev.error msg, Ev.done]
          = (body.take k ++ [Ev.error msg]) ++ [Ev.done] := by
        simp
      rw [this]
      exact List.getLast?_concat _
    · rw [List.count_append]
      rw [List.count_eq_zero.mpr hnd]
      rfl
    · intro i s h
      set p := body.take k with hp
      by_cases hi : i < p.length
      · rw [List.getElem?_append_left hi] at h
        exact absurd (List.getElem?_mem h) (hne s)
      · push_neg at hi
        rw [List.getElem?_append_right hi] at h
        have hle : i - p.length = 0 := by
          rcases Nat.lt_or_ge (i - p.length) 2 with hlt | hge
          · interval_cases hd : (i - p.length)
            · rfl
            · simp at h
          · have : ([Ev.error msg, Ev.done] : List Ev)[i - p.length]? = none :=
              List.getElem?_eq_none (by simp; omega)
            rw [this] at h
            cases h
        have hieq : i = p.length := by omega
        have h0 : ([Ev.error msg, Ev.done] : List Ev)[0]? = some (Ev.error msg) := rfl
        constructor
        · rw [List.getElem?_append_right (by omega : p.length ≤ i + 1)]
          have : i + 1 - p.length = 1 := by omega
          rw [this]
          rfl
        · simp [List.length_append, hieq]

/-- C7 counterexample: the terminal node streams `"a"` and its final
summary is `"a "` — the accumulated text is a strict prefix and the claim
demands the remaining suffix `" "` be emitted as a trailing token event,
but `chart_part.strip()` drops a pure-whitespace suffix, so no trailing
token is yielded. -/
theorem c7_whitespace_suffix_dropped :
    (foldEvents c7Events).streamed = true ∧
    (foldEvents c7Events).accumulated = "a" ∧
    (foldEvents c7Events).finalState = some { final_summary := some "a " } ∧
    ("a " : String) = "a" ++ " " ∧
    agentStreamNormal c7Events none
      = [Ev.status "正在分析您的请求...", Ev.token "a", Ev.done] ∧
    (agentStreamNormal c7Events none).count (Ev.token " ") = 0 := by
  decide

/-- C7 (amended).  (a) If the terminal node streamed tokens and the
accumulated text is a strict prefix of the captured final summary whose
remaining suffix has non-whitespace content, that suffix is emitted exactly
once, as the single trailing token event before `done` (a pure-whitespace
suffix is dropped — see the counterexample).  (b) If no tokens were
streamed and a truthy final summary was captured, the full text is replayed
as one token event per character before `done`. -/
theorem c7_trailing_suffix_and_replay :
    (∀ (events : List GEvent) (retry : Option String) (o : NodeEndOut)
        (suffix : String),
      (foldEvents events).streamed = true →
      (foldEvents events).finalState = some o →
      o.final_summary = some ((foldEvents events).accumulated ++ suffix) →
      suffix ≠ "" → pyStrip suffix ≠ "" →
      agentStreamNormal events retry
        = Ev.status "正在分析您的请求..." :: (foldEvents events).emitted
            ++ [Ev.token suffix, Ev.done]) ∧
    (∀ (events : List GEvent) (retry : Option String) (o : NodeEndOut)
        (fs : String),
      (foldEvents events).streamed = false →
      (foldEvents events).finalState = some o →
      o.final_summary = some fs → fs ≠ "" →
      agentStreamNormal events retry
        = Ev.status "正在分析您的请求..." :: (foldEvents events).emitted
            ++ fs.toList.map (fun c => Ev.token (String.mk [c]))
            ++ [Ev.done]) := by
  constructor
  · intro events retry o suffix hstr hfin hsum hsuf hws
    have hdrop : strDrop ((foldEvents events).accumulated ++ suffix)
        (foldEvents events).accumulated.length = suffix := by
      unfold strDrop
      rw [show ((foldEvents events).accumulated ++ suffix).toList
          = (foldEvents events).accumulated.toList ++ suffix.toList from
          String.data_append _ _]
      rw [show (foldEvents events).accumulated.length
          = (foldEvents events).accumulated.toList.length from rfl]
      rw [List.drop_left]
      rfl
    have hslen : 0 < suffix.length := by
      have hd : suffix.data ≠ [] := fun hd => hsuf (by cases suffix; simp_all)
      simpa using List.length_pos.mpr hd
    have hne : (foldEvents events).accumulated ++ suffix ≠ "" := by
      intro hcon
      have hlen := congrArg String.length hcon
      rw [String.length_append] at hlen
      simp only [String.length] at hlen
      simp at hlen
      omega
    have hlt : (foldEvents events).accumulated.length
        < ((foldEvents events).accumulated ++ suffix).length := by
      rw [String.length_append]
      omega
    have hchart : reconcileChart (foldEvents events).streamed
        (foldEvents events).accumulated (foldEvents events).finalState
        = [Ev.token suffix] := by
      rw [hstr, hfin]
      simp only [reconcileChart, hsum, if_true]
      rw [if_pos ⟨hne, hlt⟩, hdrop, if_pos hws]
    have hfall : reconcileFallback (foldEvents events).streamed
        (foldEvents events).finalState retry = [] := by
      rw [hstr]
      rfl
    simp only [agentStreamNormal]
    rw [hchart, hfall]
    simp
  · intro events retry o fs hstr hfin hsum hfs
    have hchart : reconcileChart (foldEvents events).streamed
        (foldEvents events).accumulated (foldEvents events).finalState = [] := by
      rw [hstr]
      rfl
    have hfall : reconcileFallback (foldEvents events).streamed
        (foldEvents events).finalState retry
        = fs.toList.map (fun c => Ev.token (String.mk [c])) := by
      rw [hstr, hfin]
      simp only [reconcileFallback, hsum, if_pos hfs]
      rfl
    simp only [agentStreamNormal]
    rw [hchart, hfall]
    simp

/-- Witness for C7: a non-whitespace suffix `"!"` is emitted as one
trailing token; a run with no streamed tokens replays `"Ok"` per
character. -/
theorem c7_trailing_suffix_and_replay_witness :
    (agentStreamNormal
        [GEvent.chatModelStream "llm_summarize" (some "Hi"),
         GEvent.chainEndNode "llm_summarize" (some { final_summary := some "Hi!" })]
        none
      = Ev.status "正在分析您的请求..."
          :: (foldEvents
            [GEvent.chatModelStream "llm_summarize" (some "Hi"),
             GEvent.chainEndNode "llm_summarize" (some { final_summary := some "Hi!" })]).emitted
          ++ [Ev.token "!", Ev.done]) ∧
    (agentStreamNormal
        [GEvent.chainEndNode "llm_summarize" (some { final_summary := some "Ok" })]
        none
      = Ev.status "正在分析您的请求..."
          :: (foldEvents
            [GEvent.chainEndNode "llm_summarize" (some { final_summary := some "Ok" })]).emitted
          ++ ("Ok".toList.map (fun c => Ev.token (String.mk [c])))
          ++ [Ev.done]) :=
  ⟨c7_trailing_suffix_and_replay.1
      [GEvent.chatModelStream "llm_summarize" (some "Hi"),
       GEvent.chainEndNode "llm_summarize" (some { final_summary := some "Hi!" })]
      none { final_summary := some "Hi!" } "!"
      (by decide) (by decide) (by decide) (by decide) (by decide),
   c7_trailing_suffix_and_replay.2
      [GEvent.chainEndNode "llm_summarize" (some { final_summary := some "Ok" })]
      none { final_summary := some "Ok" } "Ok"
      (by decide) (by decide) (by decide) (by decide)⟩

/-- The last kept element of a filter is the first match when scanning from
the rear. -/
theorem filter_getLast?_eq_reverse_find? {α : Type} (p : α → Bool) (l : List α) :
    (l.filter p).getLast? = l.reverse.find? p := by
  induction l using List.reverseRecOn with
  | nil => rfl
  | append_singleton l a ih =>
    rw [List.filter_append, List.reverse_append]
    by_cases hp : p a = true
    · rw [show List.filter p [a] = [a] from by simp [hp]]
      rw [List.getLast?_concat]
      simp [List.find?_cons_of_pos _ hp]
    · rw [show List.filter p [a] = [] from by simp [hp]]
      rw [List.append_nil, ih]
      simp [List.find?_cons_of_neg _ hp]

/-- The two last-occurrence searches agree. -/
theorem rfindSub_eq_lastOccIdx (hay pat : List Char) :
    rfindSub hay pat = lastOccIdx hay pat :=
  filter_getLast?_eq_reverse_find? (subAt hay pat) (List.range (hay.length + 1))

/-- C8 counterexample: a filename with no `".mp4"` extension still yields a
join key because the source searches for the last occurrence of `".mp4"`
anywhere in the lowercased filename rather than stripping it as a suffix —
`"123.mp4x"` and the upper-case `"123.MP4"` both produce `"123"`, while the
claim as written demands `None` for both. -/
theorem c8_extension_rule_counterexample :
    extractMaterialId "123.mp4x" = some "123" ∧
    specExtractMaterialIdClaim "123.mp4x" = none ∧
    extractMaterialId "123.MP4" = some "123" ∧
    specExtractMaterialIdClaim "123.MP4" = none := by
  decide

/-- C8 (amended).  The join-key extractor returns the prefix of the
filename before the last case-insensitive occurrence of `".mp4"` (anywhere
in the filename, not only as its extension) whenever that occurrence starts
past position 0 and the prefix is purely numeric, and `None` in every other
case — the code agrees with this amended rule on every input string. -/
theorem c8_extract_material_id_amended (s : String) :
    extractMaterialId s = specExtractMaterialIdAmended s := by
  simp only [extractMaterialId, specExtractMaterialIdAmended]
  rw [show s.toList = s.data from rfl]
  by_cases hraw : trimChars s.data = []
  · rw [if_pos hraw, if_pos hraw]
  · rw [if_neg hraw, if_neg hraw, ← rfindSub_eq_lastOccIdx]
    by_cases hfn : filenameOfRaw (trimChars s.data) = []
    · rw [if_pos hfn, hfn]
      rfl
    · rw [if_neg hfn]
      rcases hidx : rfindSub ((filenameOfRaw (trimChars s.data)).map Char.toLower)
          mp4Chars with _ | idx
      · rfl
      · dsimp only
        by_cases h0 : idx = 0
        · subst h0
          simp
        · have hpos : 0 < idx := Nat.pos_of_ne_zero h0
          rw [if_neg h0]
          by_cases hd : pyIsDigit ((filenameOfRaw (trimChars s.data)).take idx) = true
          · rw [if_pos hd, if_pos ⟨hpos, hd⟩]
          · rw [if_neg hd, if_neg (fun hcon => hd hcon.2)]

/-- Witness for C5 at a concrete failing run (exception before any yield):
the stream is exactly `error` then `done`. -/
theorem c5_stream_exactly_one_done_witness :
    (agentStreamRun [] none (some (0, "boom"))).getLast? = some Ev.done ∧
    (agentStreamRun [] none (some (0, "boom"))).count Ev.done = 1 ∧
    ((agentStreamRun [] none (some (0, "boom")))[0 + 1]? = some Ev.done ∧
     (agentStreamRun [] none (some (0, "boom"))).length = 0 + 2) :=
  ⟨(c5_stream_exactly_one_done [] none (some (0, "boom"))).1,
   (c5_stream_exactly_one_done [] none (some (0, "boom"))).2.1,
   (c5_stream_exactly_one_done [] none (some (0, "boom"))).2.2 0 "boom" rfl⟩
